import Mathlib

/-!
Shallow embedding of the Discourse API client module of
tc-message-service (the forum-access-delegation client).

Each operation of the module is translated to a Lean function that
builds the HTTP request the operation hands to the shared HTTP client:
method, URL path, the key/value pairs rendered into the URL's query
string, the per-request params configuration, and the request body.
JavaScript numbers interpolated into URL or form strings are modelled
as Nat rendered in decimal by natStr; the JavaScript built-in
encodeURIComponent is modelled by encodeURIComponent below (unreserved
ASCII characters kept, every other character percent-encoded byte-wise
from its UTF-8 encoding, uppercase hex digits).
-/

namespace Discourse

/-- One decimal digit character; the argument is reduced mod 10. -/
def digitChar (d : Nat) : Char := Char.ofNat (48 + d % 10)

/-- Decimal digits of n, most-significant first; fuel bounds the
recursion and n + 1 is always enough. -/
def natChars : Nat → Nat → List Char
  | 0, _ => []
  | fuel + 1, n =>
    if n < 10 then [digitChar n]
    else natChars fuel (n / 10) ++ [digitChar (n % 10)]

/-- Decimal rendering of a natural number, modelling the JavaScript
number-to-string conversion performed by template interpolation. -/
def natStr (n : Nat) : String := String.mk (natChars (n + 1) n)

/-- Uppercase hexadecimal digit character; the argument is reduced mod 16. -/
def hexDigitChar (n : Nat) : Char :=
  if n % 16 < 10 then Char.ofNat (48 + n % 16) else Char.ofNat (55 + n % 16)

/-- UTF-8 bytes of a character, as natural numbers below 256. -/
def utf8Bytes (c : Char) : List Nat :=
  let v := c.toNat
  if v < 128 then [v]
  else if v < 2048 then [192 + v / 64, 128 + v % 64]
  else if v < 65536 then [224 + v / 4096, 128 + v / 64 % 64, 128 + v % 64]
  else [240 + v / 262144, 128 + v / 4096 % 64, 128 + v / 64 % 64, 128 + v % 64]

/-- Characters that the JavaScript encodeURIComponent leaves unescaped:
ASCII letters and digits and the nine marks of its unreserved set. -/
def isUnreservedChar (c : Char) : Bool :=
  c.isAlphanum || [45, 95, 46, 33, 126, 42, 39, 40, 41].contains c.toNat

/-- Percent-encoding of one byte, a percent sign and two uppercase hex
digits. -/
def percentEncodeByte (b : Nat) : List Char :=
  ['%', hexDigitChar (b / 16), hexDigitChar b]

/-- Encoding of one character: kept if unreserved, otherwise each of
its UTF-8 bytes is percent-encoded. -/
def encodeCharL (c : Char) : List Char :=
  if isUnreservedChar c then [c] else (utf8Bytes c).flatMap percentEncodeByte

/-- Model of the JavaScript built-in encodeURIComponent. -/
def encodeURIComponent (s : String) : String := String.mk (s.data.flatMap encodeCharL)

/-- Splits a character list at every ampersand, modelling how a
form-encoded or query string is divided into fields. -/
def splitAmp : List Char → List (List Char)
  | [] => [[]]
  | c :: cs =>
    if c = '&' then [] :: splitAmp cs
    else
      match splitAmp cs with
      | [] => [[c]]
      | f :: fs => (c :: f) :: fs

/-- The key of one form field: the characters before the first equals
sign. -/
def fieldKey (f : List Char) : List Char := f.takeWhile (fun c => c != '=')

/-- Keys of the fields of a form-encoded body. -/
def formKeys (data : String) : List (List Char) := (splitAmp data.data).map fieldKey

/-- Joins strings with an ampersand separator, modelling the JavaScript
array join used on the timing parts. -/
def joinAmp : List String → String
  | [] => ""
  | [p] => p
  | p :: q :: ps => p ++ "&" ++ joinAmp (q :: ps)

/-- Configuration consumed by the module: the forum base URL and API
key, the distinguished system username (config value bound to
DISCOURSE_SYSTEM_USERNAME), and the application-administrator check
util.isDiscourseAdmin, which lives in the external util module and is
therefore kept abstract. -/
structure Config where
  discourseURL : String
  discourseApiKey : String
  discourseSystemUsername : String
  isDiscourseAdmin : String → Bool

/-- HTTP method of a request. -/
inductive Method where
  | get
  | post
  | put
  | delete
deriving DecidableEq

/-- File descriptor handed to uploadImage: local path, original name
and declared MIME type. -/
structure FilePart where
  path : String
  originalname : String
  mimetype : String
deriving DecidableEq

/-- Request bodies of the module's operations, one constructor per body
shape appearing in the source. -/
inductive ReqBody where
  | empty : ReqBody
  | form (data : String)
  | newUser (name : String) (username : Nat) (email : String) (password : String)
      (active : Bool) (user_fields : List (Nat × String))
  | privateMessage (archetype : String) (target_usernames : String) (title : String) (raw : String)
  | topicUpdate (topic_id : Nat) (title : String)
  | invite (user : String)
  | postUpdate (raw : String)
  | trustLevel (user_id : Nat) (level : Nat)
  | removeAllowedUser (username : String)
  | multipart (fields : List (String × String)) (file : FilePart)
deriving DecidableEq

/-- An HTTP request as issued by an operation: method, URL path, the
key/value pairs rendered into the URL's query string, the per-request
params configuration (merged by the client with its defaults, the
per-request values winning), and the body. -/
structure Request where
  method : Method
  path : String
  query : List (String × String)
  params : List (String × String)
  body : ReqBody
deriving DecidableEq

/-- The acting-user values an operation itself specifies: every value
bound to the api_username key, first in the URL query string and then
in the per-request params configuration. -/
def actingUsernames (r : Request) : List String :=
  ((r.query ++ r.params).filter (fun kv => kv.1 == "api_username")).map (fun kv => kv.2)

/-- The api_username value the client sends after merging its default
query parameters with the operation's own: the first value the
operation specifies when there is one, and the default system username
otherwise. -/
def effectiveActingUsername (cfg : Config) (r : Request) : String :=
  match actingUsernames r with
  | [] => cfg.discourseSystemUsername
  | u :: _ => u

/-- getUser: GET of the user record, with the given username
interpolated into the URL both as path segment and as the api_username
query parameter, with no administrator check. -/
def getUser (cfg : Config) (username : String) : Request :=
  { method := .get
    path := "/users/" ++ username ++ ".json"
    query := [("api_username", username)]
    params := []
    body := .empty }

/-- createUser: POST of a new user, forum username the numeric
application user id, active forced to true, handle carried under user
field key 1; the password argument is forwarded in the body. -/
def createUser (cfg : Config) (name : String) (userId : Nat) (handle : String)
    (email : String) (password : String) : Request :=
  { method := .post
    path := "/users"
    query := []
    params := []
    body := .newUser name userId email password true [(1, handle)] }

/-- createPrivatePost: POST of a private-message post; the acting user
is the owner when the owner is truthy and not an application
administrator, and the system username otherwise. -/
def createPrivatePost (cfg : Config) (title : String) (post : String)
    (users : String) (owner : Option String) : Request :=
  { method := .post
    path := "/posts"
    query := []
    params := [("api_username",
      match owner with
      | none => cfg.discourseSystemUsername
      | some o => if o != "" && !cfg.isDiscourseAdmin o then o else cfg.discourseSystemUsername)]
    body := .privateMessage "private_message" users title post }

/-- getTopic: GET of a topic with raw content included; administrator
substitution applies to the username. -/
def getTopic (cfg : Config) (topicId : Nat) (username : String) : Request :=
  { method := .get
    path := "/t/" ++ natStr topicId ++ ".json"
    query := [("include_raw", "1")]
    params := [("api_username",
      if cfg.isDiscourseAdmin username then cfg.discourseSystemUsername else username)]
    body := .empty }

/-- updateTopic: PUT of the topic id and new title; administrator
substitution applies to the username. -/
def updateTopic (cfg : Config) (username : String) (topicId : Nat) (title : String) : Request :=
  { method := .put
    path := "/t/" ++ natStr topicId ++ ".json"
    query := []
    params := [("api_username",
      if cfg.isDiscourseAdmin username then cfg.discourseSystemUsername else username)]
    body := .topicUpdate topicId title }

/-- deleteTopic: DELETE of a topic. The source passes an empty object
as the config and the object carrying the substituted api_username as a
third argument, which the client's delete helper (url, config)
discards; the operation therefore specifies no acting user and the
request goes out under the client's default system username. -/
def deleteTopic (cfg : Config) (username : String) (topicId : Nat) : Request :=
  { method := .delete
    path := "/t/" ++ natStr topicId ++ ".json"
    query := []
    params := []
    body := .empty }

/-- grantAccess: POST inviting a user into a topic, acting as the
invitee, which defaults to the literal string system and is passed
through with no substitution check. -/
def grantAccess (cfg : Config) (userName : String) (topicId : Nat)
    (invitee : String) : Request :=
  { method := .post
    path := "/t/" ++ natStr topicId ++ "/invite"
    query := []
    params := [("api_username", invitee)]
    body := .invite userName }

/-- Form-encoded body built by createPost: topic id and encoded raw
body, and, when responseTo is truthy (present and nonzero), a
reply_to_post_number field appended. -/
def createPostData (post : String) (discourseTopicId : Nat) (responseTo : Option Nat) : String :=
  let data := "topic_id=" ++ natStr discourseTopicId ++ "&raw=" ++ encodeURIComponent post
  match responseTo with
  | none => data
  | some n => if n = 0 then data else data ++ "&reply_to_post_number=" ++ natStr n

/-- createPost: POST of a form-encoded reply body; administrator
substitution applies to the username. -/
def createPost (cfg : Config) (username : String) (post : String)
    (discourseTopicId : Nat) (responseTo : Option Nat) : Request :=
  { method := .post
    path := "/posts"
    query := []
    params := [("api_username",
      if cfg.isDiscourseAdmin username then cfg.discourseSystemUsername else username)]
    body := .form (createPostData post discourseTopicId responseTo) }

/-- getPost: GET of one post; administrator substitution applies to the
username. -/
def getPost (cfg : Config) (username : String) (postId : Nat) : Request :=
  { method := .get
    path := "/posts/" ++ natStr postId ++ ".json"
    query := []
    params := [("api_username",
      if cfg.isDiscourseAdmin username then cfg.discourseSystemUsername else username)]
    body := .empty }

/-- Query-string filter built by getPosts: starting from an empty
string and an empty separator, appends one encoded post_ids[] entry per
id and switches the separator to an ampersand after the first. -/
def postIdsFilter (postIds : List Nat) : String :=
  (postIds.foldl
    (fun acc postId =>
      (acc.1 ++ acc.2 ++ encodeURIComponent "post_ids[]" ++ "=" ++ natStr postId, "&"))
    ("", "")).1

/-- getPosts: GET of several posts of a topic, raw content included and
one encoded post_ids[] query entry per requested id; administrator
substitution applies to the username. -/
def getPosts (cfg : Config) (username : String) (topicId : Nat) (postIds : List Nat) : Request :=
  { method := .get
    path := "/t/" ++ natStr topicId ++ "/posts.json"
    query := ("include_raw", "1") :: postIds.map (fun postId => (encodeURIComponent "post_ids[]", natStr postId))
    params := [("api_username",
      if cfg.isDiscourseAdmin username then cfg.discourseSystemUsername else username)]
    body := .empty }

/-- updatePost: PUT of the new raw body of a post; administrator
substitution applies to the username. -/
def updatePost (cfg : Config) (username : String) (postId : Nat) (post : String) : Request :=
  { method := .put
    path := "/posts/" ++ natStr postId ++ ".json"
    query := []
    params := [("api_username",
      if cfg.isDiscourseAdmin username then cfg.discourseSystemUsername else username)]
    body := .postUpdate post }

/-- deletePost: DELETE of a post. The source passes an empty object as
the config and the object carrying the substituted api_username as a
third argument, which the client's delete helper (url, config)
discards; the operation therefore specifies no acting user and the
request goes out under the client's default system username. -/
def deletePost (cfg : Config) (username : String) (postId : Nat) : Request :=
  { method := .delete
    path := "/posts/" ++ natStr postId ++ ".json"
    query := []
    params := []
    body := .empty }

/-- uploadImage: POST of a multipart form carrying the composer type
tag, the synchronous flag and the file part; administrator substitution
applies to the username. -/
def uploadImage (cfg : Config) (username : String) (file : FilePart) : Request :=
  { method := .post
    path := "/uploads.json"
    query := []
    params := [("api_username",
      if cfg.isDiscourseAdmin username then cfg.discourseSystemUsername else username)]
    body := .multipart [("type", "composer"), ("synchronous", "true")] file }

/-- Parts of the form body built by markTopicPostsRead: a topic_id
field and a topic_time field, both rendered from the topic id, then one
encoded timings entry per post id, each with the fixed dwell value
1000, pushed in order. -/
def timingsParts (topicId : Nat) (postIds : List Nat) : List String :=
  postIds.foldl
    (fun parts postId =>
      parts ++ [encodeURIComponent ("timings[" ++ natStr postId ++ "]") ++ "=1000"])
    ["topic_id=" ++ natStr topicId, "topic_time=" ++ natStr topicId]

/-- markTopicPostsRead: POST of the joined timing parts; the given
username is sent as the acting user with no substitution check. -/
def markTopicPostsRead (cfg : Config) (username : String) (topicId : Nat)
    (postIds : List Nat) : Request :=
  { method := .post
    path := "/topics/timings.json"
    query := []
    params := [("api_username", username)]
    body := .form (joinAmp (timingsParts topicId postIds)) }

/-- changeTrustLevel: PUT of the new trust level; no acting-user
parameter is specified by the operation. -/
def changeTrustLevel (cfg : Config) (userId : Nat) (level : Nat) : Request :=
  { method := .put
    path := "/admin/users/" ++ natStr userId ++ "/trust_level"
    query := []
    params := []
    body := .trustLevel userId level }

/-- removeAccess: PUT removing a user from the topic's allowed list,
acting as the literal string system. -/
def removeAccess (cfg : Config) (userName : String) (topicId : Nat) : Request :=
  { method := .put
    path := "/t/" ++ natStr topicId ++ "/remove-allowed-user"
    query := []
    params := [("api_username", "system")]
    body := .removeAllowedUser userName }

/-- Names of the sixteen operations exported by the module. -/
inductive OpName where
  | createUser
  | getUser
  | changeTrustLevel
  | grantAccess
  | removeAccess
  | getTopic
  | updateTopic
  | deleteTopic
  | createPost
  | updatePost
  | deletePost
  | uploadImage
  | createPrivatePost
  | getPost
  | getPosts
  | markTopicPostsRead
deriving DecidableEq

/-- Shared HTTP client state once initialized: the base URL, the
default query parameters (API key and system username), and the number
of registered response interceptors. -/
structure Client where
  baseURL : String
  defaultParams : List (String × String)
  responseInterceptors : Nat
deriving DecidableEq

/-- The client configuration installed on first use: base URL from the
configuration, default params carrying the API key and the system
username as default acting user, and the one response interceptor. -/
def initClient (cfg : Config) : Client :=
  { baseURL := cfg.discourseURL
    defaultParams := [("api_key", cfg.discourseApiKey), ("api_username", cfg.discourseSystemUsername)]
    responseInterceptors := 1 }

/-- getClient over the module-level client slot: if a client is already
present it is returned unchanged, otherwise one is initialized, stored
and returned. -/
def getClient (cfg : Config) : Option Client → Client × Option Client
  | some c => (c, some c)
  | none => (initClient cfg, some (initClient cfg))

/-- The effect of one operation call on the client slot: every
operation touches the slot only through its single getClient call and
performs no write of its own. -/
def opStep (cfg : Config) (s : Option Client) : Option Client :=
  (getClient cfg s).2

/-- The client slot after a sequence of operation calls. -/
def runOps (cfg : Config) (ops : List OpName) (s : Option Client) : Option Client :=
  ops.foldl (fun s _ => opStep cfg s) s

/-- Severity of a log entry. -/
inductive LogLevel where
  | debug
  | info
  | error
deriving DecidableEq

/-- One log entry: severity and message. -/
structure LogEntry where
  level : LogLevel
  message : String
deriving DecidableEq

/-- Outcome of the one upstream HTTP call an operation performs. -/
inductive Outcome where
  | success (status : Nat) (data : String)
  | failure (err : String)
deriving DecidableEq

/-- Result an operation hands back to its caller. -/
inductive PromiseResult where
  | resolved (data : String)
  | rejected (err : String)
deriving DecidableEq

/-- Log entries produced by the shared response interceptor: one info
entry on success, one error entry on failure. -/
def interceptorLogs : Outcome → List LogEntry
  | .success _ _ => [⟨.info, "SUCCESS"⟩]
  | .failure err => [⟨.error, "Discourse call failed: " ++ err⟩]

/-- Result of an operation for a given upstream outcome: the
interceptor re-rejects every failure, createPrivatePost's catch logs
and then re-rejects the same error, and no operation retries or
replaces a failure by a value. -/
def opResult (op : OpName) (o : Outcome) : PromiseResult :=
  match op, o with
  | .createPrivatePost, .failure e => .rejected e
  | _, .failure e => .rejected e
  | _, .success _ d => .resolved d

/-- Log entries an operation adds beyond the interceptor's when the
upstream call fails: createPrivatePost's catch issues two error calls,
a fixed message and the error value; no other operation has a catch. -/
def opFailureLogs (op : OpName) (err : String) : List LogEntry :=
  match op with
  | .createPrivatePost => [⟨.error, "Error creating topic"⟩, ⟨.error, err⟩]
  | _ => []

/-- Debug entries an operation writes on entry, before the call. -/
def opDebugLogs : OpName → List LogEntry
  | .createUser => [⟨.debug, "Creating user in discourse:"⟩]
  | .getTopic => [⟨.debug, "Retrieving topic"⟩]
  | .updateTopic => [⟨.debug, "Update topic"⟩]
  | .getPost => [⟨.debug, "Attempting to retrieve post"⟩]
  | .getPosts => [⟨.debug, "Attempting to retrieve posts"⟩]
  | .changeTrustLevel => [⟨.debug, "Changing trust level of user in discourse:"⟩]
  | _ => []

/-- All log entries of one operation call with the given outcome. -/
def opLogs (op : OpName) (o : Outcome) : List LogEntry :=
  opDebugLogs op ++ interceptorLogs o ++
    (match o with
     | .failure e => opFailureLogs op e
     | .success _ _ => [])

/-- The error-level entries of a log. -/
def errorEntries (logs : List LogEntry) : List LogEntry :=
  logs.filter (fun e => e.level == .error)

/-- A concrete configuration used to evaluate the model at specific
inputs: one recognized administrator username, a system username
distinct from both that administrator and the literal string system. -/
def exampleConfig : Config :=
  { discourseURL := "https://forum.example.com"
    discourseApiKey := "key123"
    discourseSystemUsername := "system_user"
    isDiscourseAdmin := fun u => u == "admin1" }

/-- Claim C1 as stated: for every administrator username, each of the
eleven acting-identity operations, getUser included, specifies the
system username as its api_username value and never the original
username. -/
def claimOneStatement : Prop :=
  ∀ (cfg : Config) (u : String), cfg.isDiscourseAdmin u = true →
    ∀ (title post users : String) (topicId postId : Nat) (postIds : List Nat)
      (responseTo : Option Nat) (file : FilePart),
      actingUsernames (getUser cfg u) = [cfg.discourseSystemUsername] ∧
      actingUsernames (createPrivatePost cfg title post users (some u)) = [cfg.discourseSystemUsername] ∧
      actingUsernames (getTopic cfg topicId u) = [cfg.discourseSystemUsername] ∧
      actingUsernames (updateTopic cfg u topicId title) = [cfg.discourseSystemUsername] ∧
      actingUsernames (deleteTopic cfg u topicId) = [cfg.discourseSystemUsername] ∧
      actingUsernames (createPost cfg u post topicId responseTo) = [cfg.discourseSystemUsername] ∧
      actingUsernames (getPost cfg u postId) = [cfg.discourseSystemUsername] ∧
      actingUsernames (getPosts cfg u topicId postIds) = [cfg.discourseSystemUsername] ∧
      actingUsernames (updatePost cfg u postId post) = [cfg.discourseSystemUsername] ∧
      actingUsernames (deletePost cfg u postId) = [cfg.discourseSystemUsername] ∧
      actingUsernames (uploadImage cfg u file) = [cfg.discourseSystemUsername]

/-- Claim C2 as stated: for every username failing the administrator
check, each of the eleven acting-identity operations specifies that
username, unchanged, as its api_username value. -/
def claimTwoStatement : Prop :=
  ∀ (cfg : Config) (u : String), cfg.isDiscourseAdmin u = false →
    ∀ (title post users : String) (topicId postId : Nat) (postIds : List Nat)
      (responseTo : Option Nat) (file : FilePart),
      actingUsernames (getUser cfg u) = [u] ∧
      actingUsernames (createPrivatePost cfg title post users (some u)) = [u] ∧
      actingUsernames (getTopic cfg topicId u) = [u] ∧
      actingUsernames (updateTopic cfg u topicId title) = [u] ∧
      actingUsernames (deleteTopic cfg u topicId) = [u] ∧
      actingUsernames (createPost cfg u post topicId responseTo) = [u] ∧
      actingUsernames (getPost cfg u postId) = [u] ∧
      actingUsernames (getPosts cfg u topicId postIds) = [u] ∧
      actingUsernames (updatePost cfg u postId post) = [u] ∧
      actingUsernames (deletePost cfg u postId) = [u] ∧
      actingUsernames (uploadImage cfg u file) = [u]

/-- Claim C3 as stated: the reply_to_post_number field is present in
createPost's body exactly when the responseTo argument is defined. -/
def claimThreeStatement : Prop :=
  ∀ (post : String) (topicId : Nat) (responseTo : Option Nat),
    (responseTo ≠ none →
      "reply_to_post_number".data ∈ formKeys (createPostData post topicId responseTo)) ∧
    (responseTo = none →
      "reply_to_post_number".data ∉ formKeys (createPostData post topicId responseTo))

/-- Claim C7 as stated: on upstream failure createPrivatePost adds
exactly one error entry beyond the interceptor's, every operation
rejects, and no other operation adds any entry. -/
def claimSevenStatement : Prop :=
  ∀ err : String,
    (errorEntries (opFailureLogs .createPrivatePost err)).length = 1 ∧
    (∀ op : OpName, opResult op (.failure err) = .rejected err ∧
      (op ≠ .createPrivatePost → opFailureLogs op err = []))

/-- Claim C8 as stated: removeAccess always acts as the configured
system username. -/
def claimEightStatement : Prop :=
  ∀ (cfg : Config) (userName : String) (topicId : Nat),
    actingUsernames (removeAccess cfg userName topicId) = [cfg.discourseSystemUsername]

/-- The active flag of a new-user body, when the body is one. -/
def ReqBody.activeFlag : ReqBody → Option Bool
  | .newUser _ _ _ _ a _ => some a
  | _ => none

/-- The forum username of a new-user body, when the body is one. -/
def ReqBody.forumUsername : ReqBody → Option Nat
  | .newUser _ u _ _ _ _ => some u
  | _ => none

/-- The custom user fields of a new-user body, when the body is one. -/
def ReqBody.customUserFields : ReqBody → Option (List (Nat × String))
  | .newUser _ _ _ _ _ f => some f
  | _ => none

/-- The encoded post_ids entries of the getPosts query carry a key that
is never the acting-user key. -/
theorem filter_api_username_postIds (ps : List Nat) :
    (ps.map (fun postId => (encodeURIComponent "post_ids[]", natStr postId))).filter
      (fun kv => kv.1 == "api_username") = [] := by
  induction ps with
  | nil => rfl
  | cons p ps ih =>
    simp only [List.map_cons, List.filter_cons]
    rw [if_neg (by decide)]
    exact ih

/-- Running any sequence of operations on an already initialized client
slot leaves the slot unchanged. -/
theorem runOps_some (cfg : Config) (ops : List OpName) (c : Client) :
    runOps cfg ops (some c) = some c := by
  induction ops with
  | nil => rfl
  | cons o os ih => simpa [runOps, opStep, getClient] using ih

/-- C1 counterexample: the claim fails at getUser, which interpolates
the original username into its URL as the api_username value with no
administrator check; at the administrator username admin1 of the
example configuration, getUser's request carries admin1, not the system
username. -/
theorem claimOne_counterexample : ¬ claimOneStatement := by
  intro h
  have h1 := (h exampleConfig "admin1" (by decide) "t" "p" "u" 1 2 [] none ⟨"a", "b", "c"⟩).1
  exact absurd h1 (by decide)

/-- C1 amended: for every administrator username, the acting-identity
operations that do specify an acting user, that is createPrivatePost,
getTopic, updateTopic, createPost, getPost, getPosts, updatePost and
uploadImage, specify the distinguished system username as their
api_username value, never the original username; deleteTopic and
deletePost specify no acting user at all (their params object is a
discarded third argument to the client's delete helper) and therefore
go out under the client's default system username; getUser is excluded
because it always sends the original username in its URL. -/
theorem admin_substitution (cfg : Config) (u : String)
    (h : cfg.isDiscourseAdmin u = true)
    (title post users : String) (topicId postId : Nat) (postIds : List Nat)
    (responseTo : Option Nat) (file : FilePart) :
    actingUsernames (createPrivatePost cfg title post users (some u)) = [cfg.discourseSystemUsername] ∧
    actingUsernames (getTopic cfg topicId u) = [cfg.discourseSystemUsername] ∧
    actingUsernames (updateTopic cfg u topicId title) = [cfg.discourseSystemUsername] ∧
    actingUsernames (createPost cfg u post topicId responseTo) = [cfg.discourseSystemUsername] ∧
    actingUsernames (getPost cfg u postId) = [cfg.discourseSystemUsername] ∧
    actingUsernames (getPosts cfg u topicId postIds) = [cfg.discourseSystemUsername] ∧
    actingUsernames (updatePost cfg u postId post) = [cfg.discourseSystemUsername] ∧
    actingUsernames (uploadImage cfg u file) = [cfg.discourseSystemUsername] ∧
    actingUsernames (deleteTopic cfg u topicId) = [] ∧
    effectiveActingUsername cfg (deleteTopic cfg u topicId) = cfg.discourseSystemUsername ∧
    actingUsernames (deletePost cfg u postId) = [] ∧
    effectiveActingUsername cfg (deletePost cfg u postId) = cfg.discourseSystemUsername := by
  refine ⟨?_, ?_, ?_, ?_, ?_, ?_, ?_, ?_, rfl, rfl, rfl, rfl⟩
  · simp [createPrivatePost, actingUsernames, h]
  · simp [getTopic, actingUsernames, h]
  · simp [updateTopic, actingUsernames, h]
  · simp [createPost, actingUsernames, h]
  · simp [getPost, actingUsernames, h]
  · simp [getPosts, actingUsernames, h, List.filter_append, filter_api_username_postIds]
  · simp [updatePost, actingUsernames, h]
  · simp [uploadImage, actingUsernames, h]

/-- C1 witness: the amended substitution evaluated at the example
configuration's administrator username. -/
theorem admin_substitution_witness :
    exampleConfig.isDiscourseAdmin "admin1" = true ∧
    (actingUsernames (createPrivatePost exampleConfig "t" "p" "u" (some "admin1")) = ["system_user"] ∧
     actingUsernames (getTopic exampleConfig 1 "admin1") = ["system_user"] ∧
     actingUsernames (updateTopic exampleConfig "admin1" 1 "t") = ["system_user"] ∧
     actingUsernames (createPost exampleConfig "admin1" "p" 1 none) = ["system_user"] ∧
     actingUsernames (getPost exampleConfig "admin1" 2) = ["system_user"] ∧
     actingUsernames (getPosts exampleConfig "admin1" 1 [3]) = ["system_user"] ∧
     actingUsernames (updatePost exampleConfig "admin1" 2 "p") = ["system_user"] ∧
     actingUsernames (uploadImage exampleConfig "admin1" ⟨"a", "b", "c"⟩) = ["system_user"] ∧
     actingUsernames (deleteTopic exampleConfig "admin1" 1) = [] ∧
     effectiveActingUsername exampleConfig (deleteTopic exampleConfig "admin1" 1) = "system_user" ∧
     actingUsernames (deletePost exampleConfig "admin1" 2) = [] ∧
     effectiveActingUsername exampleConfig (deletePost exampleConfig "admin1" 2) = "system_user") :=
  ⟨by decide,
   admin_substitution exampleConfig "admin1" (by decide) "t" "p" "u" 1 2 [3] none ⟨"a", "b", "c"⟩⟩

/-- C2 counterexample: the claim fails at createPrivatePost with the
empty (falsy) owner username, for which the administrator check is
false but the request is issued as the system username, not as the
empty username. -/
theorem claimTwo_counterexample : ¬ claimTwoStatement := by
  intro h
  have h2 := (h exampleConfig "" (by decide) "t" "p" "u" 1 2 [] none ⟨"a", "b", "c"⟩).2.1
  exact absurd h2 (by decide)

/-- C2 amended: for every nonempty username failing the administrator
check, the acting-identity operations that do specify an acting user,
getUser and createPrivatePost included (getUser, createPrivatePost,
getTopic, updateTopic, createPost, getPost, getPosts, updatePost,
uploadImage), specify that username unchanged as their api_username
value; deleteTopic and deletePost specify no acting user at all (their
params object is a discarded third argument to the client's delete
helper) and go out under the client's default system username, not the
given username; the empty username is excluded because
createPrivatePost treats a falsy owner as absent and substitutes the
system username. -/
theorem non_admin_passthrough (cfg : Config) (u : String)
    (h0 : u ≠ "") (h : cfg.isDiscourseAdmin u = false)
    (title post users : String) (topicId postId : Nat) (postIds : List Nat)
    (responseTo : Option Nat) (file : FilePart) :
    actingUsernames (getUser cfg u) = [u] ∧
    actingUsernames (createPrivatePost cfg title post users (some u)) = [u] ∧
    actingUsernames (getTopic cfg topicId u) = [u] ∧
    actingUsernames (updateTopic cfg u topicId title) = [u] ∧
    actingUsernames (createPost cfg u post topicId responseTo) = [u] ∧
    actingUsernames (getPost cfg u postId) = [u] ∧
    actingUsernames (getPosts cfg u topicId postIds) = [u] ∧
    actingUsernames (updatePost cfg u postId post) = [u] ∧
    actingUsernames (uploadImage cfg u file) = [u] ∧
    actingUsernames (deleteTopic cfg u topicId) = [] ∧
    effectiveActingUsername cfg (deleteTopic cfg u topicId) = cfg.discourseSystemUsername ∧
    actingUsernames (deletePost cfg u postId) = [] ∧
    effectiveActingUsername cfg (deletePost cfg u postId) = cfg.discourseSystemUsername := by
  refine ⟨rfl, ?_, ?_, ?_, ?_, ?_, ?_, ?_, ?_, rfl, rfl, rfl, rfl⟩
  · simp [createPrivatePost, actingUsernames, h, h0]
  · simp [getTopic, actingUsernames, h]
  · simp [updateTopic, actingUsernames, h]
  · simp [createPost, actingUsernames, h]
  · simp [getPost, actingUsernames, h]
  · simp [getPosts, actingUsernames, h, List.filter_append, filter_api_username_postIds]
  · simp [updatePost, actingUsernames, h]
  · simp [uploadImage, actingUsernames, h]

/-- C2 witness: the amended pass-through evaluated at a nonempty
non-administrator username of the example configuration. -/
theorem non_admin_passthrough_witness :
    "bob" ≠ "" ∧ exampleConfig.isDiscourseAdmin "bob" = false ∧
    (actingUsernames (getUser exampleConfig "bob") = ["bob"] ∧
     actingUsernames (createPrivatePost exampleConfig "t" "p" "u" (some "bob")) = ["bob"] ∧
     actingUsernames (getTopic exampleConfig 1 "bob") = ["bob"] ∧
     actingUsernames (updateTopic exampleConfig "bob" 1 "t") = ["bob"] ∧
     actingUsernames (createPost exampleConfig "bob" "p" 1 none) = ["bob"] ∧
     actingUsernames (getPost exampleConfig "bob" 2) = ["bob"] ∧
     actingUsernames (getPosts exampleConfig "bob" 1 [3]) = ["bob"] ∧
     actingUsernames (updatePost exampleConfig "bob" 2 "p") = ["bob"] ∧
     actingUsernames (uploadImage exampleConfig "bob" ⟨"a", "b", "c"⟩) = ["bob"] ∧
     actingUsernames (deleteTopic exampleConfig "bob" 1) = [] ∧
     effectiveActingUsername exampleConfig (deleteTopic exampleConfig "bob" 1) = "system_user" ∧
     actingUsernames (deletePost exampleConfig "bob" 2) = [] ∧
     effectiveActingUsername exampleConfig (deletePost exampleConfig "bob" 2) = "system_user") :=
  ⟨by decide, by decide,
   non_admin_passthrough exampleConfig "bob" (by decide) (by decide)
     "t" "p" "u" 1 2 [3] none ⟨"a", "b", "c"⟩⟩

/-- C6: createUser always sends active true, independent of the
password argument, carries the handle under user-fields key 1, and uses
the numeric application user id as the forum username. -/
theorem createUser_spec (cfg : Config) (name : String) (userId : Nat)
    (handle email password : String) :
    (createUser cfg name userId handle email password).body.activeFlag = some true ∧
    (createUser cfg name userId handle email password).body.forumUsername = some userId ∧
    (createUser cfg name userId handle email password).body.customUserFields = some [(1, handle)] :=
  ⟨rfl, rfl, rfl⟩

/-- C8 counterexample: the claim fails when the configured system
username differs from the literal string system, as in the example
configuration, because removeAccess hard-codes that literal. -/
theorem claimEight_counterexample : ¬ claimEightStatement := fun h =>
  absurd (h exampleConfig "bob" 7) (by decide)

/-- C8 amended: removeAccess always acts as the literal username
system, for all inputs and regardless of any administrator check,
independent of the configured system username. -/
theorem removeAccess_acting (cfg : Config) (userName : String) (topicId : Nat) :
    actingUsernames (removeAccess cfg userName topicId) = ["system"] := rfl

/-- C9: the shared client is created lazily on the first operation
call, configured with the base URL and with default params carrying the
API key and the system username as default acting user; after any
nonempty sequence of operation calls the stored client is exactly the
initial one, every repeated getClient call is idempotent, and every
later call returns that same client. -/
theorem client_lifecycle (cfg : Config) (op : OpName) (ops : List OpName) :
    (getClient cfg none).1 = initClient cfg ∧
    (initClient cfg).baseURL = cfg.discourseURL ∧
    (initClient cfg).defaultParams
      = [("api_key", cfg.discourseApiKey), ("api_username", cfg.discourseSystemUsername)] ∧
    runOps cfg (op :: ops) none = some (initClient cfg) ∧
    (∀ s : Option Client, getClient cfg (getClient cfg s).2 = getClient cfg s) ∧
    (getClient cfg (runOps cfg (op :: ops) none)).1 = initClient cfg := by
  have hrun : runOps cfg (op :: ops) none = some (initClient cfg) := by
    simpa [runOps, opStep, getClient] using runOps_some cfg ops (initClient cfg)
  refine ⟨rfl, rfl, rfl, hrun, ?_, ?_⟩
  · intro s; cases s <;> rfl
  · rw [hrun]; rfl

/-- C10: createPrivatePost with an absent or empty owner issues the
request as the system username; the owner value is sent unchanged only
when it is nonempty and not an application administrator, a nonempty
administrator owner being replaced by the system username as well. -/
theorem createPrivatePost_fallback (cfg : Config) (title post users : String)
    (o : String) (h0 : o ≠ "") (h1 : cfg.isDiscourseAdmin o = false)
    (a : String) (ha : cfg.isDiscourseAdmin a = true) :
    actingUsernames (createPrivatePost cfg title post users none) = [cfg.discourseSystemUsername] ∧
    actingUsernames (createPrivatePost cfg title post users (some "")) = [cfg.discourseSystemUsername] ∧
    actingUsernames (createPrivatePost cfg title post users (some o)) = [o] ∧
    actingUsernames (createPrivatePost cfg title post users (some a)) = [cfg.discourseSystemUsername] := by
  refine ⟨rfl, rfl, ?_, ?_⟩
  · simp [createPrivatePost, actingUsernames, h0, h1]
  · simp [createPrivatePost, actingUsernames, ha]

/-- Decimal digit characters are never an ampersand. -/
theorem digitChar_ne_amp (d : Nat) : digitChar d ≠ '&' := by
  have h : ∀ m, m < 10 → Char.ofNat (48 + m) ≠ '&' := by decide
  simpa [digitChar] using h (d % 10) (Nat.mod_lt d (by norm_num))

/-- Decimal renderings contain no ampersand. -/
theorem amp_not_mem_natChars (fuel n : Nat) : '&' ∉ natChars fuel n := by
  induction fuel generalizing n with
  | zero => simp [natChars]
  | succ fuel ih =>
    simp only [natChars]
    split
    · intro hmem
      exact digitChar_ne_amp _ (List.mem_singleton.mp hmem).symm
    · intro hmem
      rcases List.mem_append.mp hmem with h | h
      · exact ih _ h
      · exact digitChar_ne_amp _ (List.mem_singleton.mp h).symm

/-- Decimal renderings contain no ampersand. -/
theorem amp_not_mem_natStr (n : Nat) : '&' ∉ (natStr n).data :=
  amp_not_mem_natChars (n + 1) n

/-- Hexadecimal digit characters are never an ampersand. -/
theorem hexDigitChar_ne_amp (n : Nat) : hexDigitChar n ≠ '&' := by
  have h : ∀ m, m < 16 →
      (if m < 10 then Char.ofNat (48 + m) else Char.ofNat (55 + m)) ≠ '&' := by decide
  simpa [hexDigitChar] using h (n % 16) (Nat.mod_lt n (by norm_num))

/-- The encoding of one character contains no ampersand. -/
theorem amp_not_mem_encodeCharL (c : Char) : '&' ∉ encodeCharL c := by
  unfold encodeCharL
  split
  · intro hmem
    rename_i hres
    rw [← List.mem_singleton.mp hmem] at hres
    exact absurd hres (by decide)
  · intro hmem
    rcases List.mem_flatMap.mp hmem with ⟨b, _, hmem2⟩
    simp only [percentEncodeByte, List.mem_cons, List.not_mem_nil, or_false] at hmem2
    rcases hmem2 with h | h | h
    · exact absurd h (by decide)
    · exact hexDigitChar_ne_amp _ h.symm
    · exact hexDigitChar_ne_amp _ h.symm

/-- Percent-encoded strings contain no ampersand. -/
theorem amp_not_mem_encode (s : String) : '&' ∉ (encodeURIComponent s).data := by
  show '&' ∉ s.data.flatMap encodeCharL
  intro hmem
  rcases List.mem_flatMap.mp hmem with ⟨c, _, hc⟩
  exact amp_not_mem_encodeCharL c hc

/-- An ampersand is not in the concatenation of two ampersand-free
lists. -/
theorem amp_not_mem_append {a b : List Char} (ha : '&' ∉ a) (hb : '&' ∉ b) :
    '&' ∉ a ++ b := by
  intro hm
  rcases List.mem_append.mp hm with h | h
  · exact ha h
  · exact hb h

/-- Splitting never produces the empty list of fields. -/
theorem splitAmp_ne_nil (l : List Char) : splitAmp l ≠ [] := by
  cases l with
  | nil => simp [splitAmp]
  | cons c cs =>
    simp only [splitAmp]
    split
    · simp
    · split <;> simp

/-- Splitting an ampersand-free list yields that single field. -/
theorem splitAmp_of_not_mem {l : List Char} (h : '&' ∉ l) : splitAmp l = [l] := by
  induction l with
  | nil => rfl
  | cons c cs ih =>
    have hc : ¬ c = '&' := fun hc => h (List.mem_cons.mpr (Or.inl hc.symm))
    have hcs : '&' ∉ cs := fun hm => h (List.mem_cons_of_mem _ hm)
    simp only [splitAmp, if_neg hc, ih hcs]

/-- Splitting after an ampersand-free prefix peels off that prefix as
the first field. -/
theorem splitAmp_append {a : List Char} (h : '&' ∉ a) (b : List Char) :
    splitAmp (a ++ '&' :: b) = a :: splitAmp b := by
  induction a with
  | nil => simp [splitAmp]
  | cons c cs ih =>
    have hc : ¬ c = '&' := fun hc => h (List.mem_cons.mpr (Or.inl hc.symm))
    have hcs : '&' ∉ cs := fun hm => h (List.mem_cons_of_mem _ hm)
    simp only [List.cons_append, splitAmp, if_neg hc]
    show (match splitAmp (cs ++ '&' :: b) with
          | [] => [[c]]
          | f :: fs => (c :: f) :: fs) = (c :: cs) :: splitAmp b
    rw [ih hcs]

/-- The key of a field whose key part has no equals sign is exactly
that key part. -/
theorem fieldKey_append (k : List Char) (hk : '=' ∉ k) (rest : List Char) :
    fieldKey (k ++ '=' :: rest) = k := by
  induction k with
  | nil => simp [fieldKey]
  | cons c cs ih =>
    have hc : (c != '=') = true := by
      have h : ¬ c = '=' := fun hc => hk (List.mem_cons.mpr (Or.inl hc.symm))
      simpa using h
    have hcs : '=' ∉ cs := fun hm => hk (List.mem_cons_of_mem _ hm)
    simp only [fieldKey, List.cons_append, List.takeWhile_cons, hc, if_true]
    rw [show List.takeWhile (fun c => c != '=') (cs ++ '=' :: rest) = cs from ih hcs]

/-- Joining after gluing a prefix onto the first part distributes. -/
theorem joinAmp_append_left (a b : String) (rest : List String) :
    joinAmp ((a ++ b) :: rest) = a ++ joinAmp (b :: rest) := by
  cases rest with
  | nil => rfl
  | cons r rs => simp [joinAmp, String.append_assoc]

/-- Splitting the ampersand join of ampersand-free parts recovers
exactly those parts. -/
theorem splitAmp_joinAmp (p : String) (ps : List String)
    (h : ∀ q ∈ p :: ps, '&' ∉ q.data) :
    splitAmp (joinAmp (p :: ps)).data = (p :: ps).map String.data := by
  induction ps generalizing p with
  | nil => exact splitAmp_of_not_mem (h p (List.mem_cons_self _ _))
  | cons q qs ih =>
    have hp : '&' ∉ p.data := h p (List.mem_cons_self _ _)
    have hrest : ∀ r ∈ q :: qs, '&' ∉ r.data := fun r hr => h r (List.mem_cons_of_mem _ hr)
    have hdata : (joinAmp (p :: q :: qs)).data = p.data ++ '&' :: (joinAmp (q :: qs)).data := by
      show (p ++ "&" ++ joinAmp (q :: qs)).data = _
      rw [String.data_append, String.data_append, List.append_assoc]
      rfl
    rw [hdata, splitAmp_append hp, ih q hrest]
    rfl

/-- Pushing one element per item onto a list by a fold is mapping. -/
theorem foldl_push {α β : Type} (g : α → β) (ps : List α) (init : List β) :
    ps.foldl (fun parts p => parts ++ [g p]) init = init ++ ps.map g := by
  induction ps generalizing init with
  | nil => simp
  | cons p ps ih => simp [ih]

/-- The getPosts filter fold, started after a first entry, joins the
remaining entries with ampersands. -/
theorem postIdsFilter_go (ps : List Nat) (s : String) :
    (List.foldl
      (fun acc postId =>
        (acc.1 ++ acc.2 ++ encodeURIComponent "post_ids[]" ++ "=" ++ natStr postId, "&"))
      (s, "&") ps).1
    = joinAmp (s :: ps.map (fun p => encodeURIComponent "post_ids[]" ++ "=" ++ natStr p)) := by
  induction ps generalizing s with
  | nil => rfl
  | cons p ps ih =>
    simp only [List.foldl_cons, List.map_cons]
    rw [ih]
    rw [show s ++ "&" ++ encodeURIComponent "post_ids[]" ++ "=" ++ natStr p
          = (s ++ "&") ++ (encodeURIComponent "post_ids[]" ++ "=" ++ natStr p) from by
        simp [String.append_assoc]]
    rw [joinAmp_append_left]
    rfl

/-- C4: getPosts builds its query filter as exactly one percent-encoded
post_ids[] entry per requested id, in order, joined by single
ampersands with no leading or trailing separator. -/
theorem getPosts_filter (postIds : List Nat) :
    postIdsFilter postIds
      = joinAmp (postIds.map (fun p => encodeURIComponent "post_ids[]" ++ "=" ++ natStr p)) ∧
    encodeURIComponent "post_ids[]" = "post_ids%5B%5D" ∧
    (postIds.map (fun p => encodeURIComponent "post_ids[]" ++ "=" ++ natStr p)).length
      = postIds.length := by
  refine ⟨?_, by decide, by simp⟩
  cases postIds with
  | nil => rfl
  | cons p ps =>
    unfold postIdsFilter
    simp only [List.foldl_cons, List.map_cons]
    rw [postIdsFilter_go]
    rw [show ("" : String) ++ "" ++ encodeURIComponent "post_ids[]" ++ "=" ++ natStr p
          = encodeURIComponent "post_ids[]" ++ "=" ++ natStr p from by simp]

/-- C5: markTopicPostsRead posts the ampersand join of a topic_id
field, a topic_time field (both rendered from the topic id) and one
percent-encoded timings entry of value 1000 per post id, and sends the
given username unchanged as the acting user with no substitution
check. -/
theorem markTopicPostsRead_spec (cfg : Config) (username : String) (topicId : Nat)
    (postIds : List Nat) :
    (markTopicPostsRead cfg username topicId postIds).body
      = ReqBody.form (joinAmp (timingsParts topicId postIds)) ∧
    timingsParts topicId postIds
      = ["topic_id=" ++ natStr topicId, "topic_time=" ++ natStr topicId] ++
          postIds.map (fun p => encodeURIComponent ("timings[" ++ natStr p ++ "]") ++ "=1000") ∧
    splitAmp (joinAmp (timingsParts topicId postIds)).data
      = (timingsParts topicId postIds).map String.data ∧
    actingUsernames (markTopicPostsRead cfg username topicId postIds) = [username] := by
  have htp : timingsParts topicId postIds
      = ["topic_id=" ++ natStr topicId, "topic_time=" ++ natStr topicId] ++
          postIds.map (fun p => encodeURIComponent ("timings[" ++ natStr p ++ "]") ++ "=1000") := by
    unfold timingsParts
    exact foldl_push _ _ _
  refine ⟨rfl, htp, ?_, rfl⟩
  rw [htp]
  apply splitAmp_joinAmp
  intro q hq
  simp [List.mem_append, List.mem_cons, List.mem_map] at hq
  rcases hq with rfl | rfl | ⟨p, _, rfl⟩
  · rw [String.data_append]
    exact amp_not_mem_append (by decide) (amp_not_mem_natStr _)
  · rw [String.data_append]
    exact amp_not_mem_append (by decide) (amp_not_mem_natStr _)
  · rw [String.data_append]
    exact amp_not_mem_append (amp_not_mem_encode _) (by decide)

/-- C3 counterexample: the claim fails at the defined but falsy reply
value zero, for which createPost omits the reply_to_post_number
field. -/
theorem claimThree_counterexample : ¬ claimThreeStatement := by
  intro h
  have h1 := (h "hi" 5 (some 0)).1 (by simp)
  exact absurd h1 (by decide)

/-- C3 amended: createPost's body contains the reply_to_post_number
field exactly when responseTo is truthy, that is defined and nonzero;
with an undefined responseTo, and also with the defined but falsy value
zero, the field is absent. -/
theorem createPost_replyTo (post : String) (t : Nat) (n : Nat) (hn : ¬ n = 0) :
    formKeys (createPostData post t (some n))
      = ["topic_id".data, "raw".data, "reply_to_post_number".data] ∧
    formKeys (createPostData post t none) = ["topic_id".data, "raw".data] ∧
    formKeys (createPostData post t (some 0)) = ["topic_id".data, "raw".data] := by
  have hA : '&' ∉ "topic_id=".data ++ (natStr t).data :=
    amp_not_mem_append (by decide) (amp_not_mem_natStr t)
  have hB : '&' ∉ "raw=".data ++ (encodeURIComponent post).data :=
    amp_not_mem_append (by decide) (amp_not_mem_encode post)
  have hC : '&' ∉ "reply_to_post_number=".data ++ (natStr n).data :=
    amp_not_mem_append (by decide) (amp_not_mem_natStr n)
  have hf1 : fieldKey ("topic_id=".data ++ (natStr t).data) = "topic_id".data :=
    fieldKey_append "topic_id".data (by decide) ((natStr t).data)
  have hf2 : fieldKey ("raw=".data ++ (encodeURIComponent post).data) = "raw".data :=
    fieldKey_append "raw".data (by decide) ((encodeURIComponent post).data)
  have hf3 : fieldKey ("reply_to_post_number=".data ++ (natStr n).data)
      = "reply_to_post_number".data :=
    fieldKey_append "reply_to_post_number".data (by decide) ((natStr n).data)
  have hnone : formKeys (createPostData post t none) = ["topic_id".data, "raw".data] := by
    have hdata : (createPostData post t none).data
        = ("topic_id=".data ++ (natStr t).data)
            ++ '&' :: ("raw=".data ++ (encodeURIComponent post).data) := by
      show (("topic_id=" ++ natStr t ++ "&raw=") ++ encodeURIComponent post).data = _
      rw [String.data_append, String.data_append, String.data_append, List.append_assoc]
      rfl
    unfold formKeys
    rw [hdata, splitAmp_append hA, splitAmp_of_not_mem hB]
    simp only [List.map_cons, List.map_nil]
    rw [hf1, hf2]
  refine ⟨?_, hnone, hnone⟩
  have hval : createPostData post t (some n)
      = ("topic_id=" ++ natStr t ++ "&raw=" ++ encodeURIComponent post)
          ++ "&reply_to_post_number=" ++ natStr n := by
    simp [createPostData, hn]
  have hdata : (createPostData post t (some n)).data
      = ("topic_id=".data ++ (natStr t).data)
          ++ '&' :: (("raw=".data ++ (encodeURIComponent post).data)
          ++ '&' :: ("reply_to_post_number=".data ++ (natStr n).data)) := by
    rw [hval]
    simp only [String.data_append, List.append_assoc, List.cons_append]
  unfold formKeys
  rw [hdata, splitAmp_append hA, splitAmp_append hB, splitAmp_of_not_mem hC]
  simp only [List.map_cons, List.map_nil]
  rw [hf1, hf2, hf3]

/-- C3 witness: the amended reply-field rule evaluated at a concrete
nonzero reply number. -/
theorem createPost_replyTo_witness :
    ¬ (2 : Nat) = 0 ∧
    (formKeys (createPostData "hello" 7 (some 2))
        = ["topic_id".data, "raw".data, "reply_to_post_number".data] ∧
     formKeys (createPostData "hello" 7 none) = ["topic_id".data, "raw".data] ∧
     formKeys (createPostData "hello" 7 (some 0)) = ["topic_id".data, "raw".data]) :=
  ⟨by decide, createPost_replyTo "hello" 7 2 (by decide)⟩

/-- C7 counterexample: the claim fails on the count of extra error
entries: createPrivatePost's catch issues two error log calls, a fixed
message and the error value, not exactly one. -/
theorem claimSeven_counterexample : ¬ claimSevenStatement := by
  intro h
  exact absurd (h "boom").1 (by decide)

/-- C7 amended: on a failing upstream call every operation returns the
rejected error unchanged, the shared interceptor logs exactly one error
entry, and beyond it createPrivatePost adds exactly two error entries
while every other operation adds none; no failure is swallowed. -/
theorem failure_propagation (err : String) (op : OpName) :
    opResult op (.failure err) = .rejected err ∧
    (errorEntries (interceptorLogs (.failure err))).length = 1 ∧
    errorEntries (opLogs op (.failure err))
      = errorEntries (interceptorLogs (.failure err)) ++ errorEntries (opFailureLogs op err) ∧
    (errorEntries (opFailureLogs op err)).length
      = if op = OpName.createPrivatePost then 2 else 0 := by
  cases op <;> exact ⟨rfl, rfl, rfl, rfl⟩

/-- C10 witness: the fallback rule evaluated at concrete owners of the
example configuration. -/
theorem createPrivatePost_fallback_witness :
    "bob" ≠ "" ∧ exampleConfig.isDiscourseAdmin "bob" = false ∧
    exampleConfig.isDiscourseAdmin "admin1" = true ∧
    (actingUsernames (createPrivatePost exampleConfig "t" "hello" "u1,u2" none) = ["system_user"] ∧
     actingUsernames (createPrivatePost exampleConfig "t" "hello" "u1,u2" (some "")) = ["system_user"] ∧
     actingUsernames (createPrivatePost exampleConfig "t" "hello" "u1,u2" (some "bob")) = ["bob"] ∧
     actingUsernames (createPrivatePost exampleConfig "t" "hello" "u1,u2" (some "admin1")) = ["system_user"]) :=
  ⟨by decide, by decide, by decide,
   createPrivatePost_fallback exampleConfig "t" "hello" "u1,u2" "bob" (by decide) (by decide)
     "admin1" (by decide)⟩

end Discourse
